import Mathlib

/-!
# Verification of the autogluon-mcp-client local server and proxy router

Shallow embedding of the tool implementations in `local_server.py` and of the
prefix-routing behaviour configured by `proxy_server.py`, together with proofs
about caching, folder preparation, directory exploration, file reading,
dataset validation, credential masking and base64 round-tripping.

Bytes are modelled as `Nat` values (with explicit `< 256` bounds where they
matter), strings as Lean `String`/`List Char`, and timestamps as integers
(epoch seconds) or as broken-down civil time where the code formats fields.
-/

set_option autoImplicit false

namespace AutogluonMcp

/-! ## Base64 (Python `base64.b64encode` / `base64.b64decode`)

`prepare_local_folder` encodes each file's bytes with `base64.b64encode`
(local_server.py line 97) and `save_download_locally` decodes with
`base64.b64decode` (line 477).  The RFC 4648 alphabet is embedded directly. -/

/-- The base64 alphabet: sextet value `n` (for `n < 64`) to its ASCII character. -/
def sextetChar (n : Nat) : Char :=
  if n < 26 then Char.ofNat (65 + n)
  else if n < 52 then Char.ofNat (97 + (n - 26))
  else if n < 62 then Char.ofNat (48 + (n - 52))
  else if n = 62 then '+'
  else '/'

/-- Inverse of the base64 alphabet: character to sextet value. -/
def charSextet (c : Char) : Nat :=
  if 65 ≤ c.toNat ∧ c.toNat ≤ 90 then c.toNat - 65
  else if 97 ≤ c.toNat ∧ c.toNat ≤ 122 then 26 + (c.toNat - 97)
  else if 48 ≤ c.toNat ∧ c.toNat ≤ 57 then 52 + (c.toNat - 48)
  else if c = '+' then 62
  else 63

/-- `base64.b64encode`: three input bytes become four alphabet characters;
a final group of one or two bytes is padded with `'='`. -/
def b64encode : List Nat → List Char
  | [] => []
  | [b1] =>
    [sextetChar (b1 / 4), sextetChar (b1 % 4 * 16), '=', '=']
  | [b1, b2] =>
    [sextetChar (b1 / 4), sextetChar (b1 % 4 * 16 + b2 / 16), sextetChar (b2 % 16 * 4), '=']
  | b1 :: b2 :: b3 :: rest =>
    sextetChar (b1 / 4) :: sextetChar (b1 % 4 * 16 + b2 / 16) ::
      sextetChar (b2 % 16 * 4 + b3 / 64) :: sextetChar (b3 % 64) :: b64encode rest

/-- `base64.b64decode` on well-formed input: four characters become three
bytes, with `'='` padding cutting the final group to one or two bytes.
(On input that is not valid base64 the Python function raises; the model
returns `[]` there, which no claim depends on.) -/
def b64decode : List Char → List Nat
  | c1 :: c2 :: c3 :: c4 :: rest =>
    let v1 := charSextet c1
    let v2 := charSextet c2
    if c3 = '=' then [v1 * 4 + v2 / 16]
    else
      let v3 := charSextet c3
      if c4 = '=' then [v1 * 4 + v2 / 16, v2 % 16 * 16 + v3 / 4]
      else [v1 * 4 + v2 / 16, v2 % 16 * 16 + v3 / 4, v3 % 4 * 64 + charSextet c4]
        ++ b64decode rest
  | _ => []

/-! ## Cache store (`data_cache` dictionary, local_server.py lines 32-33)

The module-level dictionary `data_cache` is modelled as an association list
with first-match lookup; insertion conses (so the new binding shadows any
old one, matching dict overwrite) and deletion removes the key.  Timestamps
handled by `datetime.now()` subtraction are modelled as epoch seconds. -/

/-- Modelled from the spec: one element of the folder structure produced by
`analyze_folder` (imported from `file_handler`, a module absent from the
repository sources): an "ordered sequence of
{relative_path, is_directory, size, modified_time}". -/
structure FolderEntry where
  relative_path : String
  is_directory : Bool
  size : Nat
  modified_time : Int
deriving DecidableEq

abbrev FolderStructure := List FolderEntry

/-- One value of `data_cache` (local_server.py lines 107-112): the prepared
folder structure, base64-encoded file contents keyed by relative path,
insertion timestamp and source path. -/
structure CacheEntry where
  folder_structure : FolderStructure
  file_contents : List (String × List Char)
  timestamp : Int
  source_path : String
deriving DecidableEq

abbrev DataCache := List (String × CacheEntry)

/-- `cache_timeout = 3600  # 1 hour` (local_server.py line 33). -/
def cacheTimeout : Int := 3600

/-- `cache_id in data_cache` / `data_cache[cache_id]`: first-match lookup. -/
def cacheLookup : DataCache → String → Option CacheEntry
  | [], _ => none
  | (k, v) :: rest, cid => if k = cid then some v else cacheLookup rest cid

/-- `del data_cache[cache_id]`. -/
def cacheErase (cache : DataCache) (cid : String) : DataCache :=
  cache.filter fun p => p.1 ≠ cid

/-- `data_cache[cache_id] = entry`: dict assignment overwrites. -/
def cacheInsert (cache : DataCache) (cid : String) (entry : CacheEntry) : DataCache :=
  (cid, entry) :: cacheErase cache cid

/-- Python's `timedelta.seconds` attribute of `now - created`: a timedelta is
normalised to `days` (floor) plus `seconds` in `[0, 86400)`, so the attribute
is the elapsed seconds modulo 86400 — not the total elapsed seconds. -/
def timedeltaSeconds (delta : Int) : Int := delta % 86400

/-- Result envelope of `get_cached_data` (local_server.py lines 136-167). -/
inductive GetCachedResult where
  | ok (folder_structure : FolderStructure) (file_contents : List (String × List Char))
  | notFound (cache_id : String)
  | expired (age : Int)
deriving DecidableEq

/-- `get_cached_data` (local_server.py lines 136-167): missing id fails;
otherwise `age = (datetime.now() - cached["timestamp"]).seconds`, and the
entry is deleted and reported expired when `age > cache_timeout`, else
returned.  Returns the result together with the updated cache. -/
def getCachedData (cache : DataCache) (cache_id : String) (now : Int) :
    GetCachedResult × DataCache :=
  match cacheLookup cache cache_id with
  | none => (.notFound cache_id, cache)
  | some cached =>
    let age := timedeltaSeconds (now - cached.timestamp)
    if age > cacheTimeout then (.expired age, cacheErase cache cache_id)
    else (.ok cached.folder_structure cached.file_contents, cache)

/-- A concrete cache entry (timestamp 0) used to evaluate the cache at
specific access times. -/
def sampleEntry : CacheEntry :=
  { folder_structure := [⟨"data.csv", false, 2, 0⟩]
    file_contents := [("data.csv", b64encode [104, 105])]
    timestamp := 0
    source_path := "/tmp/data" }

/-! ## Cache id generation (local_server.py line 106)

`cache_id = f"folder_{datetime.now().strftime('%Y%m%d_%H%M%S')}_{hash(folder_path)}"`.
`datetime.now()` is modelled as broken-down civil time (the fields the
`strftime` format prints, plus microseconds, which it does not print). -/

/-- A `datetime.datetime` value as `strftime` sees it. -/
structure PyDateTime where
  year : Nat
  month : Nat
  day : Nat
  hour : Nat
  minute : Nat
  second : Nat
  microsecond : Nat
deriving DecidableEq

/-- Zero-padding of a numeric `strftime` field to width `w`. -/
def padNum (w : Nat) (n : Nat) : String :=
  String.mk (List.replicate (w - (toString n).length) '0') ++ toString n

/-- `strftime('%Y%m%d_%H%M%S')`: second resolution, microseconds dropped. -/
def strftimeCompact (t : PyDateTime) : String :=
  padNum 4 t.year ++ padNum 2 t.month ++ padNum 2 t.day ++ "_" ++
    padNum 2 t.hour ++ padNum 2 t.minute ++ padNum 2 t.second

/-- Modelled from the spec: Python's builtin `hash` of the source path (the
"content-derived" component of the cache id, spec §3); the interpreter's
string hash is unspecified, so the model fixes a deterministic polynomial
hash — the claims depend only on its being a function of the path alone. -/
def pyHash (s : String) : Int :=
  s.data.foldl (fun a c => (a * 31 + c.toNat) % 2305843009213693951) 7

/-- `cache_id = f"folder_{...strftime...}_{hash(folder_path)}"` (line 106). -/
def cacheId (t : PyDateTime) (folder_path : String) : String :=
  "folder_" ++ strftimeCompact t ++ "_" ++ toString (pyHash folder_path)

/-! ## `prepare_local_folder` (local_server.py lines 38-132)

The filesystem walk `path.rglob("*")` is modelled by the list of regular
files under the root, in traversal order; each carries its path relative to
the root, its size, bytes and mtime.  `Path.match(pattern)` is a library
call, passed in as a function argument. -/

/-- A regular file found under the prepared root. -/
structure PFile where
  rel : String
  size : Nat
  content : List Nat
  mtime : Int
deriving DecidableEq

/-- Modelled from the spec: `analyze_folder(folder_path)` (from the absent
`file_handler` module) — the "tree description: ordered sequence of
{relative_path, is_directory, size, modified_time}" of spec §3, here for the
regular files of the walk. -/
def analyzeFolder (files : List PFile) : FolderStructure :=
  files.map fun f =>
    { relative_path := f.rel, is_directory := false, size := f.size, modified_time := f.mtime }

/-- Accumulator of the `for file_path in path.rglob("*")` loop
(local_server.py lines 76-103). -/
structure ScanState where
  file_contents : List (String × List Char)
  total_size : Nat
  skipped_files : List String
deriving DecidableEq

/-- One iteration of the loop (lines 80-103): a file matching a skip pattern
is recorded as skipped; else one over the size threshold is recorded as
skipped with a size tag (the one-decimal float rendering of the code is
abstracted to integer megabytes); else its bytes are base64-encoded and
stored under the relative path.  Read errors are not modelled (every listed
file is readable). -/
def scanStep (matchPath : String → String → Bool) (root : String)
    (skip_patterns : List String) (max_file_size : Nat)
    (st : ScanState) (f : PFile) : ScanState :=
  let full := root ++ "/" ++ f.rel
  if skip_patterns.any (fun pat => matchPath full pat) then
    { st with skipped_files := st.skipped_files ++ [full] }
  else if f.size > max_file_size then
    { st with skipped_files :=
        st.skipped_files ++ [full ++ " (too large: " ++ toString (f.size / 1048576) ++ "MB)"] }
  else
    { st with
        file_contents := st.file_contents ++ [(f.rel, b64encode f.content)]
        total_size := st.total_size + f.size }

/-- The whole walk, over the files in traversal order. -/
def scanFiles (matchPath : String → String → Bool) (root : String)
    (skip_patterns : List String) (max_file_size : Nat) (files : List PFile) : ScanState :=
  files.foldl (scanStep matchPath root skip_patterns max_file_size) ⟨[], 0, []⟩

/-- Flattened result envelope of `prepare_local_folder` (lines 115-125; the
summary's derived rounded-float `total_size_mb` field is not modelled). -/
structure PrepareResult where
  success : Bool
  error : Option String
  cache_id : String
  total_files : Nat
  total_size : Nat
  skipped_count : Nat
  skipped_details : List String
deriving DecidableEq

/-- `prepare_local_folder` (lines 38-132): validates the path, walks the
files, inserts the prepared payload into `data_cache` under a fresh cache id
and returns the summary.  `idTime` and `entryTime` model the two separate
`datetime.now()` calls on lines 106 and 110. -/
def prepareLocalFolder (matchPath : String → String → Bool)
    (folder_path : String) (pathExists isDir : Bool) (files : List PFile)
    (max_file_size : Nat) (skip_patterns : List String)
    (idTime : PyDateTime) (entryTime : Int) (cache : DataCache) :
    PrepareResult × DataCache :=
  if !pathExists then
    ({ success := false, error := some ("Path not found: " ++ folder_path), cache_id := ""
       total_files := 0, total_size := 0, skipped_count := 0, skipped_details := [] }, cache)
  else if !isDir then
    ({ success := false, error := some ("Not a directory: " ++ folder_path), cache_id := ""
       total_files := 0, total_size := 0, skipped_count := 0, skipped_details := [] }, cache)
  else
    let st := scanFiles matchPath folder_path skip_patterns max_file_size files
    let cid := cacheId idTime folder_path
    let entry : CacheEntry :=
      { folder_structure := analyzeFolder files, file_contents := st.file_contents
        timestamp := entryTime, source_path := folder_path }
    ({ success := true, error := none, cache_id := cid
       total_files := st.file_contents.length, total_size := st.total_size
       skipped_count := st.skipped_files.length
       skipped_details := st.skipped_files.take 10 }, cacheInsert cache cid entry)

/-! ## `explore_directory` (local_server.py lines 170-238)

The filesystem subtree under the explored path is modelled as a tree of
regular files and directories; `sorted(p.iterdir())` sorts the children by
name (the `Path` ordering is its path string, which within one directory is
the name).  `PermissionError` listings are not modelled (every directory is
listable). -/

/-- A node of the real filesystem subtree. -/
inductive FSNode where
  | file (name : String) (size : Nat) (mtime : Int) (ext : String)
  | dir (name : String) (children : List FSNode)

/-- `p.name`. -/
def FSNode.name : FSNode → String
  | .file n _ _ _ => n
  | .dir n _ => n

/-- A node of the tree returned by `explore_tree`: the truncated marker
`{"type": "directory", "name": ..., "truncated": True}` (line 197), a full
file description (lines 201-207), or a directory with children and count
(lines 218-223). -/
inductive TreeNode where
  | truncated (tname : String)
  | file (fname : String) (size : Nat) (modified : Int) (extension : String)
  | dir (dname : String) (children : List TreeNode) (count : Nat)

/-- Insertion of a node into a name-sorted list. -/
def insertByName (x : FSNode) : List FSNode → List FSNode
  | [] => [x]
  | y :: ys => if x.name ≤ y.name then x :: y :: ys else y :: insertByName x ys

/-- `sorted(p.iterdir())`: the children in name order. -/
def sortByName : List FSNode → List FSNode
  | [] => []
  | x :: xs => insertByName x (sortByName xs)

/-- `child.name.startswith('.')` (line 212): the name's first character is a dot. -/
def isHidden (s : String) : Bool :=
  match s.data with
  | [] => false
  | c :: _ => c = '.'

/-- The recursion of `explore_tree`, structurally on the remaining depth
budget `max_depth - current_depth`: the code's guard
`current_depth >= max_depth` (line 196) holds exactly when the budget is
zero, and each recursive call (line 214) passes `current_depth + 1`,
shrinking the budget by one.  At budget zero every node — file or directory
alike — becomes the truncated directory marker, because the depth test
precedes the file test; below that a file is fully described and a
directory recurses into its name-sorted, hidden-filtered children. -/
def exploreTreeGo (include_hidden : Bool) : Nat → FSNode → TreeNode
  | 0, p => .truncated p.name
  | budget + 1, p =>
    match p with
    | .file n sz mt ext => .file n sz mt ext
    | .dir n children =>
      let visible := (sortByName children).filter
        fun c => include_hidden || !(isHidden c.name)
      let kids := visible.map (exploreTreeGo include_hidden budget)
      .dir n kids kids.length

/-- `explore_tree(p, current_depth)` (local_server.py lines 195-223). -/
def exploreTree (max_depth : Nat) (include_hidden : Bool)
    (p : FSNode) (current_depth : Nat) : TreeNode :=
  exploreTreeGo include_hidden (max_depth - current_depth) p

/-! ## `read_local_file` (local_server.py lines 241-304)

The file is the byte list on disk; `path.read_text(encoding=...)` is a
Python codec call, modelled by a decoding function passed in as an argument
(`none` models a raised `UnicodeDecodeError`).  `stat.st_size` of a regular
file is its byte count. -/

/-- Result envelope of `read_local_file`. -/
structure ReadFileResult where
  success : Bool
  error : Option String
  content : List Char
  encoding : String
  size : Nat
  modified : Int
deriving DecidableEq

/-- `read_local_file` (lines 241-304): with `as_text` the bytes are decoded
with the requested codec; a `UnicodeDecodeError` falls back to the base64
branch (lines 284-286 set `as_text = False`), which always succeeds with
base64 content and the `encoding` field `"base64"`. -/
def readLocalFile (decodeText : List Nat → Option String)
    (pathExists isFile : Bool) (file_path : String) (fileBytes : List Nat) (mtime : Int)
    (as_text : Bool) (encoding : String) : ReadFileResult :=
  if !pathExists then
    { success := false, error := some ("File not found: " ++ file_path)
      content := [], encoding := "", size := 0, modified := 0 }
  else if !isFile then
    { success := false, error := some ("Not a file: " ++ file_path)
      content := [], encoding := "", size := 0, modified := 0 }
  else
    match as_text, decodeText fileBytes with
    | true, some text =>
      { success := true, error := none, content := text.data, encoding := encoding
        size := fileBytes.length, modified := mtime }
    | _, _ =>
      { success := true, error := none, content := b64encode fileBytes, encoding := "base64"
        size := fileBytes.length, modified := mtime }

/-! ## `validate_dataset` (local_server.py lines 307-382) -/

/-- Result of `validate_dataset`: the `.csv` and `.json` branches build
reports from parsing the file (pandas data frame shape, JSON structure);
their payloads are abstracted as the strings `csvReport`/`jsonReport`
passed in by the caller of the model, since only the branch taken matters
to the claims.  The fallthrough branch (lines 369-375) reports the file
type, size and a fixed message. -/
inductive ValidateResult where
  | err (msg : String)
  | csvReport (payload : String)
  | jsonReport (payload : String)
  | other (file_type : String) (size : Nat) (message : String)
deriving DecidableEq

/-- `path.suffix.lower()` (line 327): ASCII lowercasing of the extension. -/
def strLower (s : String) : String :=
  String.mk (s.data.map Char.toLower)

/-- `validate_dataset` (lines 307-382): missing path fails; the lowercased
suffix selects the csv branch, the json branch, or the generic
"File type not specifically validated" report carrying the extension and
the file size. -/
def validateDataset (pathExists : Bool) (file_path : String) (suffix : String)
    (size : Nat) (csv json : String) : ValidateResult :=
  if !pathExists then .err ("File not found: " ++ file_path)
  else
    let extension := strLower suffix
    if extension = ".csv" then .csvReport csv
    else if extension = ".json" then .jsonReport json
    else .other extension size "File type not specifically validated"

/-! ## `save_download_locally` (local_server.py lines 452-493) -/

/-- Result envelope of `save_download_locally`. -/
structure SaveResult where
  success : Bool
  saved_path : String
  size : Nat
deriving DecidableEq

/-- `save_download_locally` (lines 452-493): decodes the base64 payload,
writes the bytes (returned as the second component, the argument of
`path.write_bytes`) and reports the decoded length as `size`.  Parent
directory creation (`create_dirs`) is a filesystem side effect with no
bearing on the written bytes and is not modelled further. -/
def saveDownloadLocally (content_b64 : List Char) (target_path : String) :
    SaveResult × List Nat :=
  let content := b64decode content_b64
  ({ success := true, saved_path := target_path, size := content.length }, content)

/-! ## `read_credentials` (local_server.py lines 385-449)

The content read from disk is the input; the masking loop (lines 424-432)
applies `re.sub(rf'({key}[^=]*=\\s*)"?([^"\\s]+)"?', r'\\1"***MASKED***"', ...,
flags=re.IGNORECASE)` successively for KEY, SECRET, TOKEN and PASSWORD, and
only the masked copy is handed to the logger (line 435); the returned
payload is the original text (line 439). -/

/-- `re` ASCII whitespace class `\s`. -/
def isPySpace (c : Char) : Bool :=
  c = ' ' || c = '\t' || c = '\n' || c = '\r' || c = '\x0b' || c = '\x0c'

/-- Case-insensitive literal match (re.IGNORECASE): consumes `key` from the
front of `s`, returning the consumed characters as they appear in `s` and
the remainder. -/
def matchKeyCI : List Char → List Char → Option (List Char × List Char)
  | [], s => some ([], s)
  | _, [] => none
  | k :: ks, c :: cs =>
    if k.toLower = c.toLower then
      match matchKeyCI ks cs with
      | some (eaten, rest) => some (c :: eaten, rest)
      | none => none
    else none

/-- One attempted match of `({key}[^=]*=\s*)"?([^"\s]+)"?` at the head of
the input: the key (case-insensitively), then everything up to the first
`=` (the greedy `[^=]*` cannot cross one), the `=`, greedy whitespace —
all of which form group 1 — then an optional quote, one or more
non-quote/non-space characters, and an optional closing quote.  Returns
group 1 and the remainder after the whole match. -/
def matchSecretAt (key : List Char) (s : List Char) : Option (List Char × List Char) :=
  match matchKeyCI key s with
  | none => none
  | some (eaten, s1) =>
    let pre := s1.takeWhile (fun c => !(c = '='))
    match s1.dropWhile (fun c => !(c = '=')) with
    | '=' :: s3 =>
      let ws := s3.takeWhile isPySpace
      let s4 := s3.dropWhile isPySpace
      let g1 := eaten ++ pre ++ '=' :: ws
      match s4 with
      | '"' :: s5 =>
        let val := s5.takeWhile fun c => !(c = '"' || isPySpace c)
        if val.isEmpty then none
        else
          let s6 := s5.dropWhile fun c => !(c = '"' || isPySpace c)
          match s6 with
          | '"' :: s7 => some (g1, s7)
          | _ => some (g1, s6)
      | _ =>
        let val := s4.takeWhile fun c => !(c = '"' || isPySpace c)
        if val.isEmpty then none
        else
          let s6 := s4.dropWhile fun c => !(c = '"' || isPySpace c)
          match s6 with
          | '"' :: s7 => some (g1, s7)
          | _ => some (g1, s6)
    | _ => none

/-- The replacement text `\1"***MASKED***"` minus group 1. -/
def maskToken : List Char :=
  '"' :: ("***MASKED***".data ++ ['"'])

/-- `re.sub` scanning: at each position try the pattern; on a match emit
group 1 followed by the mask token and resume after the match, else copy one
character.  A successful match always consumes at least the key and the
`=`, so the input length bounds the number of steps (the `fuel`). -/
def reSubMaskGo (key : List Char) : Nat → List Char → List Char
  | 0, s => s
  | fuel + 1, s =>
    match matchSecretAt key s with
    | some (g1, rest) => g1 ++ maskToken ++ reSubMaskGo key fuel rest
    | none =>
      match s with
      | [] => []
      | c :: cs => c :: reSubMaskGo key fuel cs

/-- `re.sub(rf'({key}[^=]*=\s*)"?([^"\s]+)"?', r'\1"***MASKED***"', text, flags=re.IGNORECASE)`. -/
def reSubMask (key : List Char) (s : List Char) : List Char :=
  reSubMaskGo key s.length s

/-- The masking loop of lines 424-432, in loop order KEY, SECRET, TOKEN,
PASSWORD. -/
def maskAll (content : String) : String :=
  String.mk (reSubMask "PASSWORD".data (reSubMask "TOKEN".data
    (reSubMask "SECRET".data (reSubMask "KEY".data content.data))))

/-- Result envelope of `read_credentials`. -/
structure CredsResult where
  success : Bool
  credentials_text : String
  source_path : String
  provider_hint : Option String
deriving DecidableEq

/-- `read_credentials` from the point the file has been located and read
(line 421 onward): computes the masked copy for the logger (the second
component; `logger.debug` prints its first 200 characters) and returns the
original, unmasked content as `credentials_text` (lines 437-442). -/
def readCredentials (content : String) (source_path : String)
    (provider : Option String) : CredsResult × String :=
  let masked := maskAll content
  ({ success := true, credentials_text := content, source_path := source_path
     provider_hint := provider }, masked)

/-! ## Prefix routing (proxy_server.py lines 16-73)

`create_unified_proxy` registers the two backends `local` and `remote` and
delegates dispatch to `FastMCP.as_proxy`, library code outside this
repository. -/

/-- Character-list prefix test (the composite name starts with the prefix). -/
def strIsPrefixOf (p s : String) : Bool :=
  p.data.isPrefixOf s.data

/-- Dropping the first `n` characters of a name (prefix stripping). -/
def strDrop (s : String) (n : Nat) : String :=
  String.mk (s.data.drop n)

/-- Modelled from the spec: the routing contract of §4.5 for the proxy built
by `create_unified_proxy` — `callTool(name, args)` "extracts the longest
matching registered prefix from `name`, strips it, and forwards the
remaining name and args to that backend, returning its result unmodified;
if no prefix matches, fails with `UnknownTool`".  A backend is its prefix
together with its handler; a registered prefix `p` matches when the exposed
name starts with `p` followed by the `_` separator of the composite
`prefix_originalName` form (§6). -/
def routeBackend {α β : Type} (backends : List (String × (String → α → β)))
    (name : String) : Option (String × (String → α → β)) :=
  backends.foldl
    (fun best b =>
      if strIsPrefixOf (b.1 ++ "_") name then
        match best with
        | none => some b
        | some c => if c.1.length < b.1.length then some b else some c
      else best)
    none

/-- Routing failure envelope. -/
inductive RouteResult (β : Type) where
  | ok (result : β)
  | unknownTool (name : String)

/-- Modelled from the spec: `callTool` of §4.5 (see `routeBackend`). -/
def callTool {α β : Type} (backends : List (String × (String → α → β)))
    (name : String) (args : α) : RouteResult β :=
  match routeBackend backends name with
  | some (p, h) => .ok (h (strDrop name (p.length + 1)) args)
  | none => .unknownTool name

/-! ## Concrete fixtures used to evaluate the models -/

/-- List-based suffix test. -/
def strEndsWith (s suffix : String) : Bool :=
  suffix.data.isSuffixOf s.data

/-- A concrete instance of the `Path.match` library call handed to the
folder-preparation model: it recognises exactly the `*.log` glob. -/
def globLogMatch (s pat : String) : Bool :=
  pat = "*.log" && strEndsWith s ".log"

/-- Eleven files, every one of which matches `*.log`. -/
def elevenLogs : List PFile :=
  (List.range 11).map fun i => { rel := "a" ++ toString i ++ ".log"
                                 size := 1, content := [], mtime := 0 }

/-- The skip reason the loop body of `prepare_local_folder` assigns to a
file, if any: the bare path for a pattern match (line 85), the tagged path
for an oversized file (line 91), none for a stored file. -/
def fileSkipReason (matchPath : String → String → Bool) (root : String)
    (skip_patterns : List String) (max_file_size : Nat) (f : PFile) : Option String :=
  let full := root ++ "/" ++ f.rel
  if skip_patterns.any (fun pat => matchPath full pat) then some full
  else if f.size > max_file_size then
    some (full ++ " (too large: " ++ toString (f.size / 1048576) ++ "MB)")
  else none

theorem charSextet_sextetChar : ∀ n < 64, charSextet (sextetChar n) = n := by decide

theorem sextetChar_ne_pad : ∀ n < 64, sextetChar n ≠ '=' := by decide

/-- Base64 round trip: decoding the encoding of any byte list gives it back. -/
theorem b64_roundtrip : ∀ C : List Nat, (∀ b ∈ C, b < 256) → b64decode (b64encode C) = C := by
  intro C
  induction C using b64encode.induct with
  | case1 =>
    intro _
    simp [b64encode, b64decode]
  | case2 b1 =>
    intro h
    have hb1 : b1 < 256 := h b1 (by simp)
    simp only [b64encode, b64decode, if_true]
    rw [charSextet_sextetChar _ (by omega), charSextet_sextetChar _ (by omega)]
    simp only [List.cons.injEq, and_true]
    omega
  | case3 b1 b2 =>
    intro h
    have hb1 : b1 < 256 := h b1 (by simp)
    have hb2 : b2 < 256 := h b2 (by simp)
    simp only [b64encode, b64decode]
    rw [if_neg (sextetChar_ne_pad (b2 % 16 * 4) (by omega))]
    simp only [if_true]
    rw [charSextet_sextetChar _ (by omega), charSextet_sextetChar _ (by omega),
      charSextet_sextetChar _ (by omega)]
    simp only [List.cons.injEq, and_true]
    exact ⟨by omega, by omega⟩
  | case4 b1 b2 b3 rest ih =>
    intro h
    have hb1 : b1 < 256 := h b1 (by simp)
    have hb2 : b2 < 256 := h b2 (by simp)
    have hb3 : b3 < 256 := h b3 (by simp)
    have hrest : ∀ b ∈ rest, b < 256 := fun b hb => h b (by simp [hb])
    simp only [b64encode, b64decode]
    rw [if_neg (sextetChar_ne_pad (b2 % 16 * 4 + b3 / 64) (by omega)),
      if_neg (sextetChar_ne_pad (b3 % 64) (by omega))]
    rw [charSextet_sextetChar _ (by omega), charSextet_sextetChar _ (by omega),
      charSextet_sextetChar _ (by omega), charSextet_sextetChar _ (by omega)]
    rw [ih hrest]
    simp only [List.cons_append, List.nil_append, List.cons.injEq, and_true]
    exact ⟨by omega, by omega, by omega⟩

/-! ## Characterisation of the preparation walk -/

theorem scan_skipped_eq (mf : String → String → Bool) (root : String) (pats : List String)
    (maxSz : Nat) :
    ∀ (files : List PFile) (st : ScanState),
    (files.foldl (scanStep mf root pats maxSz) st).skipped_files =
      st.skipped_files ++ files.filterMap (fileSkipReason mf root pats maxSz) := by
  intro files
  induction files with
  | nil => intro st; simp
  | cons f fs ih =>
    intro st
    rw [List.foldl_cons, ih, List.filterMap_cons]
    by_cases h1 : (pats.any fun pat => mf (root ++ "/" ++ f.rel) pat) = true
    · simp [scanStep, fileSkipReason, h1, List.append_assoc]
    · by_cases h2 : f.size > maxSz
      · simp [scanStep, fileSkipReason, h1, h2, List.append_assoc]
      · simp [scanStep, fileSkipReason, h1, h2]

theorem scan_contents_eq (mf : String → String → Bool) (root : String) (pats : List String)
    (maxSz : Nat) :
    ∀ (files : List PFile) (st : ScanState),
    (files.foldl (scanStep mf root pats maxSz) st).file_contents =
      st.file_contents ++
        (files.filter fun f => (fileSkipReason mf root pats maxSz f).isNone).map
          (fun f => (f.rel, b64encode f.content)) := by
  intro files
  induction files with
  | nil => intro st; simp
  | cons f fs ih =>
    intro st
    rw [List.foldl_cons, ih, List.filter_cons]
    by_cases h1 : (pats.any fun pat => mf (root ++ "/" ++ f.rel) pat) = true
    · simp [scanStep, fileSkipReason, h1]
    · by_cases h2 : f.size > maxSz
      · simp [scanStep, fileSkipReason, h1, h2]
      · simp [scanStep, fileSkipReason, h1, h2, List.append_assoc]

theorem cacheLookup_insert (cache : DataCache) (cid : String) (e : CacheEntry) :
    cacheLookup (cacheInsert cache cid e) cid = some e := by
  simp [cacheInsert, cacheLookup]

theorem lookup_none_of_forall_ne {β : Type} (l : List (String × β)) (k : String)
    (h : ∀ p ∈ l, p.1 ≠ k) : l.lookup k = none := by
  rw [List.lookup_eq_none_iff]
  intro p hp
  simp only [bne_iff_ne, ne_eq]
  exact fun he => h p hp he.symm

/-! ## The claims -/

/-- Claim C1 (code bug): the claim says an entry is expired at any access
`T'` with `T' - T ≥ TTL`, and the code documents the cache as expiring
after one hour; but `get_cached_data` measures age with
`timedelta.seconds`, which wraps every 24 hours, so an entry inserted at
time 0 and accessed exactly 86400 seconds (24 h) later — far beyond the
3600-second TTL — is returned fresh, with the cache left intact. -/
theorem getCachedData_day_wraparound_returns_fresh :
    (86400 : Int) - sampleEntry.timestamp ≥ cacheTimeout ∧
    getCachedData [("folder_x", sampleEntry)] "folder_x" 86400 =
      (GetCachedResult.ok sampleEntry.folder_structure sampleEntry.file_contents,
        [("folder_x", sampleEntry)]) :=
  ⟨by decide, rfl⟩

/-- Claim C5 (code bug): the claim says an entry whose age exceeds the TTL
is removed at access time; but for an entry inserted at time 0 and accessed
90000 seconds (25 h) later, `timedelta.seconds` yields `90000 % 86400 =
3600`, which is not `> cache_timeout`, so the entry is neither reported
expired nor removed — it is returned fresh and stays in the store. -/
theorem getCachedData_25h_old_entry_not_removed :
    (90000 : Int) - sampleEntry.timestamp > cacheTimeout ∧
    getCachedData [("folder_x", sampleEntry)] "folder_x" 90000 =
      (GetCachedResult.ok sampleEntry.folder_structure sampleEntry.file_contents,
        [("folder_x", sampleEntry)]) :=
  ⟨by decide, rfl⟩

/-- Claim C2, counterexample: in `explore_tree` the depth test precedes the
file test, so a regular file reached at depth = max_depth is returned as
the truncated directory marker (carrying no size, mtime or extension), not
as a full file node as the claim states. -/
theorem exploreTree_file_at_depth_limit_cex :
    exploreTree 1 false (FSNode.dir "d" [FSNode.file "a.txt" 5 0 ".txt"]) 0 =
      TreeNode.dir "d" [TreeNode.truncated "a.txt"] 1 ∧
    TreeNode.truncated "a.txt" ≠ TreeNode.file "a.txt" 5 0 ".txt" :=
  ⟨rfl, fun h => nomatch h⟩

/-- Claim C2 (amended): at depth ≥ max_depth `explore_tree` returns the
truncated directory marker for every node, file or directory alike; files
are fully described only strictly below the depth limit. -/
theorem exploreTree_depth_limit_truncates_all (max_depth : Nat) (include_hidden : Bool)
    (p : FSNode) (depth : Nat) (h : max_depth ≤ depth) :
    exploreTree max_depth include_hidden p depth = TreeNode.truncated p.name := by
  unfold exploreTree
  rw [Nat.sub_eq_zero_of_le h]
  rfl

theorem exploreTree_depth_limit_truncates_all_witness :
    1 ≤ 1 ∧
    exploreTree 1 false (FSNode.file "b.csv" 9 3 ".csv") 1 = TreeNode.truncated "b.csv" :=
  ⟨by decide, exploreTree_depth_limit_truncates_all 1 false (FSNode.file "b.csv" 9 3 ".csv") 1
    (by decide)⟩

/-- Claim C3, counterexample: with eleven files all matching `*.log`, every
one is skipped, but `skipped_details` holds only the first ten
(`skipped_files[:10]`, line 123), so the eleventh matching file does not
appear in `skipped_details`, contradicting the claim that every matching
file appears there. -/
theorem prepare_eleventh_skip_missing_cex :
    (⟨"a10.log", 1, [], 0⟩ : PFile) ∈ elevenLogs ∧
    (["*.log"].any fun pat => globLogMatch ("r" ++ "/" ++ "a10.log") pat) = true ∧
    "r/a10.log" ∉
      (prepareLocalFolder globLogMatch "r" true true elevenLogs 100 ["*.log"]
        ⟨2025, 1, 1, 0, 0, 0, 0⟩ 0 []).1.skipped_details := by
  decide

/-- Claim C3 (amended): every file matching a skip pattern is recorded in
the full skipped list (whose length the summary reports as `skipped_files`,
and whose first ten entries form `skipped_details`), and its relative path
never appears among the keys of the cached `file_contents`. -/
theorem prepare_matched_file_never_stored
    (mf : String → String → Bool) (root : String) (files : List PFile)
    (maxSz : Nat) (pats : List String) (tId : PyDateTime) (tE : Int)
    (cache : DataCache) (f : PFile)
    (hf : f ∈ files) (hnd : (files.map PFile.rel).Nodup)
    (hmatch : (pats.any fun pat => mf (root ++ "/" ++ f.rel) pat) = true) :
    (root ++ "/" ++ f.rel) ∈ (scanFiles mf root pats maxSz files).skipped_files ∧
    (prepareLocalFolder mf root true true files maxSz pats tId tE cache).1.skipped_details =
      ((scanFiles mf root pats maxSz files).skipped_files).take 10 ∧
    (prepareLocalFolder mf root true true files maxSz pats tId tE cache).1.skipped_count =
      (scanFiles mf root pats maxSz files).skipped_files.length ∧
    ∃ e, cacheLookup (prepareLocalFolder mf root true true files maxSz pats tId tE cache).2
        (prepareLocalFolder mf root true true files maxSz pats tId tE cache).1.cache_id =
          some e ∧
      e.file_contents.lookup f.rel = none := by
  have hreason : fileSkipReason mf root pats maxSz f = some (root ++ "/" ++ f.rel) := by
    simp [fileSkipReason, hmatch]
  refine ⟨?_, rfl, rfl, ?_⟩
  · unfold scanFiles
    rw [scan_skipped_eq]
    exact List.mem_filterMap.mpr ⟨f, hf, hreason⟩
  · refine ⟨_, cacheLookup_insert cache (cacheId tId root) _, ?_⟩
    apply lookup_none_of_forall_ne
    intro p hp
    unfold scanFiles at hp
    rw [scan_contents_eq] at hp
    simp only [List.nil_append, List.mem_map, List.mem_filter] at hp
    obtain ⟨g, ⟨hg_mem, hg_keep⟩, rfl⟩ := hp
    intro hge
    have hgf : g = f := List.inj_on_of_nodup_map hnd hg_mem hf hge
    rw [hgf, hreason] at hg_keep
    simp at hg_keep

theorem prepare_matched_file_never_stored_witness :
    ((["*.log"].any fun pat => globLogMatch ("r" ++ "/" ++ "x.log") pat) = true) ∧
    ("r" ++ "/" ++ "x.log") ∈
      (scanFiles globLogMatch "r" ["*.log"] 100 [⟨"x.log", 1, [], 0⟩]).skipped_files := by
  have h := prepare_matched_file_never_stored globLogMatch "r" [⟨"x.log", 1, [], 0⟩] 100
    ["*.log"] ⟨2025, 1, 1, 0, 0, 0, 0⟩ 0 [] ⟨"x.log", 1, [], 0⟩ (by decide) (by decide)
    (by decide)
  exact ⟨by decide, h.1⟩

/-- Claim C4: routing of the unified proxy (modelled from the spec, since
`FastMCP.as_proxy` is library code): with backends `local` and `remote`,
`callTool("remote_check_status", args)` is forwarded to the `remote`
handler under the stripped name `check_status` and its result returned
unmodified, while a name matching no registered prefix fails with
`UnknownTool`. -/
theorem callTool_prefix_routing {α β : Type} (hL hR : String → α → β) (args : α) :
    callTool [("local", hL), ("remote", hR)] "remote_check_status" args =
      RouteResult.ok (hR "check_status" args) ∧
    callTool [("local", hL), ("remote", hR)] "unknown_prefix_x" args =
      RouteResult.unknownTool "unknown_prefix_x" :=
  ⟨rfl, rfl⟩

theorem callTool_prefix_routing_witness :
    callTool [("local", fun _ (_ : Nat) => (0 : Nat)),
        ("remote", fun n a => if n = "check_status" then a + 1 else 0)]
      "remote_check_status" 41 = RouteResult.ok 42 ∧
    callTool [("local", fun _ (_ : Nat) => (0 : Nat)),
        ("remote", fun n a => if n = "check_status" then a + 1 else 0)]
      "unknown_prefix_x" 41 = RouteResult.unknownTool "unknown_prefix_x" :=
  ⟨(callTool_prefix_routing (fun _ _ => 0) (fun n a => if n = "check_status" then a + 1 else 0)
      41).1.trans rfl,
    (callTool_prefix_routing (fun _ _ => 0) (fun n a => if n = "check_status" then a + 1 else 0)
      41).2⟩

/-- Claim C6: base64 round trip — decoding the encoding of any byte content
gives it back, so a file prepared by `prepare_local_folder` and handed to
`save_download_locally` is written back byte-for-byte identical, and the
reported `size` is the decoded byte length. -/
theorem saveDownloadLocally_roundtrip (C : List Nat) (target : String)
    (h : ∀ b ∈ C, b < 256) :
    (saveDownloadLocally (b64encode C) target).2 = C ∧
    (saveDownloadLocally (b64encode C) target).1.size = C.length ∧
    (saveDownloadLocally (b64encode C) target).1.saved_path = target := by
  have hd := b64_roundtrip C h
  exact ⟨hd, by simp [saveDownloadLocally, hd], rfl⟩

theorem saveDownloadLocally_roundtrip_witness :
    (∀ b ∈ [0, 77, 255], b < 256) ∧
    (saveDownloadLocally (b64encode [0, 77, 255]) "out.bin").2 = [0, 77, 255] :=
  ⟨by decide, (saveDownloadLocally_roundtrip [0, 77, 255] "out.bin" (by decide)).1⟩

/-- Claim C7: `read_credentials` returns the file content exactly as read,
unmasked, in `credentials_text`; the KEY/SECRET/TOKEN/PASSWORD masking is
applied only to the copy handed to the logger. -/
theorem readCredentials_returns_unmasked (content source_path : String)
    (provider : Option String) :
    (readCredentials content source_path provider).1.credentials_text = content ∧
    (readCredentials content source_path provider).2 = maskAll content :=
  ⟨rfl, rfl⟩

/-- The masking model at work on a sample (sanity anchor for
`readCredentials`): the logged copy replaces the secret value, the
non-secret line survives. -/
theorem maskAll_sample :
    maskAll "AWS_SECRET_ACCESS_KEY = abc123\nregion = us-east-1\n" =
      "AWS_SECRET_ACCESS_KEY = \x22***MASKED***\x22\nregion = us-east-1\n" := rfl

/-- Claim C8, counterexample: the cache id renders the invocation time at
second resolution, so two invocations 500 ms apart — distinct invocation
times — on the same path yield the identical cache id, contradicting
uniqueness per (invocation time, source path). -/
theorem cacheId_same_second_collision_cex :
    cacheId ⟨2025, 7, 1, 12, 0, 0, 0⟩ "/data" =
      cacheId ⟨2025, 7, 1, 12, 0, 0, 500000⟩ "/data" ∧
    (⟨2025, 7, 1, 12, 0, 0, 0⟩ : PyDateTime) ≠ ⟨2025, 7, 1, 12, 0, 0, 500000⟩ :=
  ⟨rfl, by decide⟩

/-- Claim C8 (amended): a cache id determines exactly the pair (formatted
second-resolution timestamp, rendered path hash): two invocations (whose
formatted timestamps have equal length, e.g. four-digit years) share a
cache id iff they agree on the formatted second and on the rendered hash of
the source path — so ids are unique only per (second, path hash), not per
(invocation time, path). -/
theorem cacheId_eq_iff_second_and_hash (t1 t2 : PyDateTime) (p1 p2 : String)
    (hlen : (strftimeCompact t1).length = (strftimeCompact t2).length) :
    cacheId t1 p1 = cacheId t2 p2 ↔
      strftimeCompact t1 = strftimeCompact t2 ∧
        toString (pyHash p1) = toString (pyHash p2) := by
  constructor
  · intro h
    have hd := congrArg String.data h
    simp only [cacheId, String.data_append, List.append_assoc] at hd
    have hd1 := List.append_cancel_left hd
    have hsplit := List.append_inj hd1 (by exact hlen)
    rcases hsplit with ⟨hfmt, hrest⟩
    have hhash := List.append_cancel_left hrest
    exact ⟨String.ext hfmt, String.ext hhash⟩
  · rintro ⟨h1, h2⟩
    simp [cacheId, h1, h2]

theorem cacheId_eq_iff_second_and_hash_witness :
    (strftimeCompact ⟨2025, 7, 1, 12, 0, 0, 0⟩).length =
      (strftimeCompact ⟨2025, 7, 1, 12, 0, 1, 0⟩).length ∧
    cacheId ⟨2025, 7, 1, 12, 0, 0, 0⟩ "/data" ≠ cacheId ⟨2025, 7, 1, 12, 0, 1, 0⟩ "/data" := by
  refine ⟨by decide, fun hc => ?_⟩
  have h := (cacheId_eq_iff_second_and_hash ⟨2025, 7, 1, 12, 0, 0, 0⟩ ⟨2025, 7, 1, 12, 0, 1, 0⟩
    "/data" "/data" (by decide)).mp hc
  exact absurd h.1 (by decide)

/-- Claim C9: when `read_local_file` is called with `as_text` and the
requested codec rejects the bytes (`UnicodeDecodeError`), the call does not
fail: it falls back to the binary branch and returns success with the
content base64-encoded and the `encoding` field `"base64"`. -/
theorem readLocalFile_decode_error_falls_back (decodeText : List Nat → Option String)
    (file_path : String) (fileBytes : List Nat) (mtime : Int) (encoding : String)
    (h : decodeText fileBytes = none) :
    readLocalFile decodeText true true file_path fileBytes mtime true encoding =
      { success := true, error := none, content := b64encode fileBytes, encoding := "base64"
        size := fileBytes.length, modified := mtime } := by
  simp [readLocalFile, h]

theorem readLocalFile_decode_error_falls_back_witness :
    ((fun _ : List Nat => (none : Option String)) [255, 0] = none) ∧
    readLocalFile (fun _ => none) true true "f.bin" [255, 0] 7 true "utf-8" =
      { success := true, error := none, content := b64encode [255, 0], encoding := "base64"
        size := 2, modified := 7 } :=
  ⟨rfl, readLocalFile_decode_error_falls_back (fun _ => none) "f.bin" [255, 0] 7 "utf-8" rfl⟩

/-- Claim C10: for an existing file whose lowercased extension is neither
`.csv` nor `.json`, `validate_dataset` succeeds with `file_type` the
(lowercased) extension, the file size, and the message
"File type not specifically validated". -/
theorem validateDataset_other_extension (file_path suffix : String) (size : Nat)
    (csv json : String) (h1 : strLower suffix ≠ ".csv") (h2 : strLower suffix ≠ ".json") :
    validateDataset true file_path suffix size csv json =
      ValidateResult.other (strLower suffix) size "File type not specifically validated" := by
  simp [validateDataset, h1, h2]

theorem validateDataset_other_extension_witness :
    strLower ".TXT" ≠ ".csv" ∧ strLower ".TXT" ≠ ".json" ∧
    validateDataset true "/d/file.TXT" ".TXT" 42 "" "" =
      ValidateResult.other ".txt" 42 "File type not specifically validated" :=
  ⟨by decide, by decide,
    (validateDataset_other_extension "/d/file.TXT" ".TXT" 42 "" "" (by decide)
      (by decide)).trans rfl⟩

end AutogluonMcp
